import Mathlib

/-!
Verification of the togrill-bluetooth packet and frame codec
(`src/togrill_bluetooth/parse_packets.py`, plus the frame layer described by
the design document). Byte strings are modelled as `List Nat` with each
element below 256; fractional temperatures are modelled as rationals, which
represent the Python arithmetic here exactly (every value involved is a
decimal fraction that Python compares for equality the same way after its
float rounding, and all claims are stated on such values).
-/

namespace TogrillBluetooth

/-- Python exceptions that can escape the decode functions: `DecodeError`
with its message string (module `exceptions`), `IndexError` from an
out-of-range `bytes` subscript, and `RecursionError` from unbounded
recursion. -/
inductive PyErr where
  | decodeError (msg : String)
  | indexError
  | recursionError
  deriving DecidableEq

/-- Registry of notify-direction packet types, filled by
`PacketNotify.__init_subclass__` in class definition order: the `type`
class attributes of `PacketA0Notify`, `PacketA1Notify`, `PacketA5Notify`
and `PacketA7Notify`. -/
def PACKET_REGISTRY : List Nat := [0xA0, 0xA1, 0xA5, 0xA7]

/-- Fields of `PacketA0Notify` (device status). -/
structure PacketA0Notify where
  battery : Nat
  version_major : Nat
  version_minor : Nat
  function_type : Nat
  probe_number : Nat
  ambient : Bool
  alarm_interval : Nat
  alarm_sound : Bool
  deriving DecidableEq

/-- Fields of `PacketA1Notify` (temperature on probes); `none` is the
absent reading produced from the 0xFFFF sentinel. -/
structure PacketA1Notify where
  temperatures : List (Option ℚ)
  deriving DecidableEq

/-- Fields of `PacketA5Notify` (status from probe); the `message` field
keeps the raw integer, which is what the Python `IntEnum` coercion
preserves whether or not the value is a known enumerator. -/
structure PacketA5Notify where
  probe : Nat
  message : Nat
  deriving DecidableEq

/-- Fields of `PacketA7Notify` (timer report). -/
structure PacketA7Notify where
  data : Nat
  deriving DecidableEq

/-- Fields of `PacketUnknown`, the catch-all for unregistered type bytes. -/
structure PacketUnknown where
  type : Nat
  data : List Nat
  deriving DecidableEq

/-- Result values of the notify-direction dispatcher. -/
inductive Packet where
  | a0 (p : PacketA0Notify)
  | a1 (p : PacketA1Notify)
  | a5 (p : PacketA5Notify)
  | a7 (p : PacketA7Notify)
  | unknown (p : PacketUnknown)
  deriving DecidableEq

/-- Embedding of `PacketNotify.decode` (parse_packets.py lines 30-37).
The source reads

  registered_cls = _PACKET_REGISTRY.get(data[0])
  if registered_cls: return cls.decode(data)

where `cls` is `PacketNotify` itself, so the registered branch calls the
very same function again; `fuel` models the Python call stack, and running
out of it is the `RecursionError` Python raises. The unregistered branch
returns `PacketUnknown(data[0], data[1:])`, and an empty payload raises
`DecodeError("Failed to parse packet")`. -/
def PacketNotify.decode (fuel : Nat) (data : List Nat) : Except PyErr Packet :=
  match data with
  | [] => .error (.decodeError "Failed to parse packet")
  | b0 :: rest =>
    if b0 ∈ PACKET_REGISTRY then
      match fuel with
      | 0 => .error .recursionError
      | n + 1 => PacketNotify.decode n (b0 :: rest)
    else .ok (.unknown ⟨b0, rest⟩)

/-- Embedding of `PacketA0Notify.decode` (lines 54-85): length check first,
then the type-byte check; bytes 1-3 are battery and version, byte 5 is a
bitfield; when `len(data) > 6` the code reads `data[6]` and `data[7]`, so a
payload of length exactly 7 raises `IndexError` at `data[7]`. -/
def PacketA0Notify.decode (data : List Nat) : Except PyErr PacketA0Notify :=
  match data with
  | b0 :: b1 :: b2 :: b3 :: _b4 :: b5 :: rest =>
    if b0 ≠ 0xA0 then .error (.decodeError "Failed to parse packet")
    else
      match rest with
      | [] => .ok ⟨b1, b2, b3, b5 &&& 0xF, (b5 >>> 4) &&& 0x7, b5 >>> 7 != 0, 5, true⟩
      | [_b6] => .error .indexError
      | b6 :: b7 :: _ =>
          .ok ⟨b1, b2, b3, b5 &&& 0xF, (b5 >>> 4) &&& 0x7, b5 >>> 7 != 0, b6, b7 == 1⟩
  | _ => .error (.decodeError "Packet too short")

/-- Big-endian readings of the two-byte slices `data[index:index+2]` for
`index in range(1, len(data), 2)`, applied to `data[1:]`: Python slicing
clamps, so a final lone byte yields a one-byte big-endian value. -/
def pairsBE : List Nat → List Nat
  | [] => []
  | [a] => [a]
  | a :: b :: rest => (a * 256 + b) :: pairsBE rest

/-- Embedding of the inner `convert` of `PacketA1Notify.decode`
(lines 116-121). -/
def convert (value : Nat) : Option ℚ :=
  if value = 65535 then none
  else if 32768 < value then some (((value : ℚ) - 32768) / 10)
  else some ((value : ℚ) / 10)

/-- Embedding of `PacketA1Notify.decode` (lines 105-125). -/
def PacketA1Notify.decode (data : List Nat) : Except PyErr PacketA1Notify :=
  match data with
  | [] => .error (.decodeError "Packet too short")
  | b0 :: rest =>
    if b0 ≠ 0xA1 then .error (.decodeError "Failed to parse packet")
    else .ok ⟨(pairsBE rest).map convert⟩

/-- Embedding of `PacketA5Notify.decode` (lines 227-239); the enum
round-trip on `data[2]` leaves the integer value unchanged. -/
def PacketA5Notify.decode (data : List Nat) : Except PyErr PacketA5Notify :=
  match data with
  | b0 :: b1 :: b2 :: _ =>
    if b0 ≠ 0xA5 then .error (.decodeError "Failed to parse packet")
    else .ok ⟨b1, b2⟩
  | _ => .error (.decodeError "Packet too short")

/-- Embedding of `PacketA7Notify.decode` (lines 249-253); note the source
checks only the length, not the type byte. -/
def PacketA7Notify.decode (data : List Nat) : Except PyErr PacketA7Notify :=
  match data with
  | _b0 :: b1 :: _ => .ok ⟨b1⟩
  | _ => .error (.decodeError "Packet too short")

/-- Embedding of Python `round` on an exact rational: round half to even. -/
def pyRound (q : ℚ) : ℤ :=
  if Int.fract q < 1/2 then ⌊q⌋
  else if 1/2 < Int.fract q then ⌊q⌋ + 1
  else if ⌊q⌋ % 2 = 0 then ⌊q⌋ else ⌊q⌋ + 1

/-- Embedding of `int.to_bytes(2, "big")`: two big-endian bytes, or the
`OverflowError` (modelled as `none`) Python raises outside `[0, 65536)`. -/
def toBytes2 (v : ℤ) : Option (List Nat) :=
  if 0 ≤ v ∧ v < 65536 then some [v.toNat / 256, v.toNat % 256] else none

/-- Embedding of the `bytes([...])` constructor: succeeds only when every
element fits in a byte (otherwise Python raises `ValueError`). -/
def bytesOf (l : List Nat) : Option (List Nat) :=
  if l.all (fun b => b < 256) then some l else none

/-- Fields of `PacketA300Write` (set min and max temperature). -/
structure PacketA300Write where
  probe : Nat
  minimum : ℚ
  maximum : ℚ
  deriving DecidableEq

/-- Embedding of `PacketA300Write.decode` (lines 147-157): length check,
then the subtype check on `data[2]`; the type byte is never inspected. -/
def PacketA300Write.decode (data : List Nat) : Except PyErr PacketA300Write :=
  match data with
  | _b0 :: b1 :: b2 :: b3 :: b4 :: b5 :: b6 :: _ =>
    if b2 ≠ 0x00 then .error (.decodeError "Invalid subtype")
    else .ok ⟨b1, ((b3 * 256 + b4 : Nat) : ℚ) / 10, ((b5 * 256 + b6 : Nat) : ℚ) / 10⟩
  | _ => .error (.decodeError "Packet too short")

/-- Embedding of `PacketA300Write.encode` (lines 159-162). -/
def PacketA300Write.encode (p : PacketA300Write) : Option (List Nat) := do
  let min_temp ← toBytes2 (pyRound (p.minimum * 10))
  let max_temp ← toBytes2 (pyRound (p.maximum * 10))
  bytesOf ([0xA3, p.probe, 0x00] ++ min_temp ++ max_temp)

/-- Fields of `PacketA301Write` (set target temperature). -/
structure PacketA301Write where
  probe : Nat
  target : ℚ
  deriving DecidableEq

/-- Embedding of `PacketA301Write.decode` (lines 174-183). -/
def PacketA301Write.decode (data : List Nat) : Except PyErr PacketA301Write :=
  match data with
  | _b0 :: b1 :: b2 :: b3 :: b4 :: _b5 :: _b6 :: _ =>
    if b2 ≠ 0x01 then .error (.decodeError "Invalid subtype")
    else .ok ⟨b1, ((b3 * 256 + b4 : Nat) : ℚ) / 10⟩
  | _ => .error (.decodeError "Packet too short")

/-- Embedding of `PacketA301Write.encode` (lines 185-187). -/
def PacketA301Write.encode (p : PacketA301Write) : Option (List Nat) := do
  let target_temp ← toBytes2 (pyRound (p.target * 10))
  bytesOf ([0xA3, p.probe, 0x01] ++ target_temp ++ [0, 0])

/-- Fields of `PacketA303Write` (set grill type). -/
structure PacketA303Write where
  probe : Nat
  grill_type : Nat
  deriving DecidableEq

/-- Embedding of `PacketA303Write.decode` (lines 199-208). -/
def PacketA303Write.decode (data : List Nat) : Except PyErr PacketA303Write :=
  match data with
  | _b0 :: b1 :: b2 :: _b3 :: b4 :: _b5 :: _b6 :: _ =>
    if b2 ≠ 0x03 then .error (.decodeError "Invalid subtype")
    else .ok ⟨b1, b4⟩
  | _ => .error (.decodeError "Packet too short")

/-- Embedding of `PacketA303Write.encode` (lines 210-211). -/
def PacketA303Write.encode (p : PacketA303Write) : Option (List Nat) :=
  bytesOf [0xA3, p.probe, 0x03, 0, p.grill_type, 0, 0]

/-- Fields of `PacketA7Write` (set timer); `time` is the timedelta in
seconds, exact as a rational. -/
structure PacketA7Write where
  probe : Nat
  time : ℚ
  unknown : Nat
  deriving DecidableEq

/-- Embedding of `PacketA7Write.decode` (lines 265-271); only the length
is checked, never the type byte. -/
def PacketA7Write.decode (data : List Nat) : Except PyErr PacketA7Write :=
  match data with
  | _b0 :: b1 :: b2 :: b3 :: b4 :: _ =>
    .ok ⟨b1, ((b3 * 256 + b4 : Nat) : ℚ), b2⟩
  | _ => .error (.decodeError "Packet too short")

/-- Embedding of `PacketA7Write.encode` (lines 273-282). -/
def PacketA7Write.encode (p : PacketA7Write) : Option (List Nat) := do
  let seconds ← toBytes2 (pyRound p.time)
  bytesOf ([0xA7, p.probe, p.unknown] ++ seconds)

/-- Frame codec error: the design document has a single malformed-frame
failure covering short buffers, bad magic, bad length and bad checksum. -/
inductive FrameError where
  | malformed
  deriving DecidableEq

/-- Running XOR of a byte sequence, zero-initialised. -/
def xorChecksum (l : List Nat) : Nat := l.foldl (fun a b => a ^^^ b) 0

/-- Modelled from the spec: the Frame Codec implementation
(`togrill_bluetooth.parse`, classes `WriteCharacteristic` and
`NotifyCharacteristic`) is not among the provided sources. Encode, per
design sections 4.1 and 6: magic `0x55 0xAA`, big-endian 16-bit payload
length, payload, then the XOR of every prior byte. -/
def Frame.encode (payload : List Nat) : List Nat :=
  let header := [0x55, 0xAA, payload.length / 256 % 256, payload.length % 256]
  header ++ payload ++ [xorChecksum (header ++ payload)]

/-- Modelled from the spec: the Frame Codec implementation
(`togrill_bluetooth.parse`) is not among the provided sources. Decode, per
design section 4.1: fail on fewer than 5 bytes, wrong magic, a declared
length different from the actual payload size, or a checksum mismatch;
otherwise return the payload with the envelope stripped. -/
def Frame.decode (frame : List Nat) : Except FrameError (List Nat) :=
  match frame with
  | m0 :: m1 :: l0 :: l1 :: rest =>
    if m0 = 0x55 ∧ m1 = 0xAA then
      if rest.length = l0 * 256 + l1 + 1 then
        let payload := rest.take (l0 * 256 + l1)
        if rest.getD (l0 * 256 + l1) 0 = xorChecksum ([m0, m1, l0, l1] ++ payload)
        then .ok payload
        else .error .malformed
      else .error .malformed
    else .error .malformed
  | _ => .error .malformed

end TogrillBluetooth

namespace TogrillBluetooth

/-! Bridge lemmas between the bitwise operations of the source and their
arithmetic readings. -/

lemma and_fifteen (b : Nat) : b &&& 0xF = b % 16 := by
  have h := Nat.and_pow_two_sub_one_eq_mod b 4
  norm_num at h
  exact h

lemma shift4_and_seven (b : Nat) : (b >>> 4) &&& 0x7 = b / 16 % 8 := by
  have h := Nat.and_pow_two_sub_one_eq_mod (b >>> 4) 3
  norm_num at h
  rw [h, Nat.shiftRight_eq_div_pow]

lemma shift7_bit (b : Nat) (h : b < 256) : (b >>> 7 != 0) = decide (128 ≤ b) := by
  rw [Nat.shiftRight_eq_div_pow]
  have hp : (2 : Nat) ^ 7 = 128 := by norm_num
  rw [hp]
  by_cases hb : 128 ≤ b
  · have h1 : b / 128 = 1 := by omega
    simp [h1, hb]
  · have h0 : b / 128 = 0 := by omega
    simp [h0, hb]

lemma beq_one (b : Nat) : (b == 1) = decide (b = 1) := by
  by_cases hb : b = 1 <;> simp [hb]

end TogrillBluetooth

namespace TogrillBluetooth

/-- C1: contrary to the specification, the dispatching decode never
terminates with the registered variant's result. For every payload whose
first byte is registered (0xA0, 0xA1, 0xA5, 0xA7) and every call-stack
budget, `PacketNotify.decode` re-enters itself (line 36 reads
`return cls.decode(data)` where `cls` is `PacketNotify`, leaving
`registered_cls` unused) and ends in `RecursionError`. -/
theorem packetNotify_decode_registered_recursion
    (fuel b0 : Nat) (rest : List Nat) (h : b0 ∈ PACKET_REGISTRY) :
    PacketNotify.decode fuel (b0 :: rest) = .error PyErr.recursionError := by
  induction fuel with
  | zero => simp [PacketNotify.decode, h]
  | succ n ih =>
      rw [PacketNotify.decode, if_pos h]
      exact ih

/-- Witness for C1: a device-status payload exhausts a stack budget of 100
frames and ends in `RecursionError`. -/
theorem packetNotify_decode_registered_recursion_witness :
    PacketNotify.decode 100 [0xA0, 0x5B] = .error PyErr.recursionError :=
  packetNotify_decode_registered_recursion 100 0xA0 [0x5B] (by decide)

/-- C2 counterexample: the claim says raw value 0x8000 (32768) yields 0.0,
but `convert` only applies the negative-range formula strictly above 32768,
so 32768 falls to the `value / 10` branch and yields 3276.8. -/
theorem convert_boundary_counterexample :
    convert 32768 = some ((3276.8 : ℚ)) ∧ ¬ convert 32768 = some ((0.0 : ℚ)) := by
  constructor
  · rw [convert, if_neg (by norm_num), if_neg (by norm_num)]
    norm_num
  · rw [convert, if_neg (by norm_num), if_neg (by norm_num)]
    simp only [Option.some.injEq]
    norm_num

/-- C2 (amended): raw 0xFFFF yields an absent reading; a raw value
strictly above 32768 yields (value - 32768) / 10; any other value,
including the boundary 32768 itself, yields value / 10 (so 32768 yields
3276.8, not 0.0); raw 0x01B5 yields 43.7. -/
theorem convert_spec (v : Nat) :
    (v = 65535 → convert v = none)
  ∧ (32768 < v → v ≠ 65535 → convert v = some (((v : ℚ) - 32768) / 10))
  ∧ (v ≤ 32768 → convert v = some ((v : ℚ) / 10))
  ∧ convert 65535 = none
  ∧ convert 32768 = some ((3276.8 : ℚ))
  ∧ convert 437 = some ((43.7 : ℚ)) := by
  refine ⟨?_, ?_, ?_, ?_, ?_, ?_⟩
  · intro hv
    rw [convert, if_pos hv]
  · intro h1 h2
    rw [convert, if_neg h2, if_pos h1]
  · intro h1
    rw [convert, if_neg (by omega), if_neg (by omega)]
  · rw [convert, if_pos rfl]
  · rw [convert, if_neg (by norm_num), if_neg (by norm_num)]
    norm_num
  · rw [convert, if_neg (by norm_num), if_neg (by norm_num)]
    norm_num

/-- Witness for C2 (amended): raw 437 yields 43.7 through the general
`value / 10` branch. -/
theorem convert_spec_witness : convert 437 = some ((437 : ℚ) / 10) :=
  (convert_spec 437).2.2.1 (by decide)

/-- C7: a non-empty payload whose first byte is not registered decodes to
the catch-all Unknown variant carrying the type byte and the remaining
bytes verbatim, at every stack budget and without error; the concrete
type byte 0x00 does so too; an empty payload fails with the
empty-payload `DecodeError`. -/
theorem unknown_fallback_spec (fuel b0 : Nat) (rest : List Nat)
    (h : b0 ∉ PACKET_REGISTRY) :
    PacketNotify.decode fuel (b0 :: rest) = .ok (.unknown ⟨b0, rest⟩)
  ∧ PacketNotify.decode fuel [] = .error (.decodeError "Failed to parse packet")
  ∧ PacketNotify.decode fuel (0x00 :: rest) = .ok (.unknown ⟨0x00, rest⟩) := by
  refine ⟨?_, ?_, ?_⟩
  · rw [PacketNotify.decode.eq_def]
    simp [h]
  · rw [PacketNotify.decode.eq_def]
  · have h0 : (0x00 : Nat) ∉ PACKET_REGISTRY := by decide
    rw [PacketNotify.decode.eq_def]
    simp [h0]

/-- Witness for C7: type byte 0x42 is unregistered and falls back to
Unknown. -/
theorem unknown_fallback_spec_witness :
    PacketNotify.decode 3 [0x42, 0x01, 0x02] = .ok (.unknown ⟨0x42, [0x01, 0x02]⟩)
  ∧ PacketNotify.decode 3 [] = .error (.decodeError "Failed to parse packet")
  ∧ PacketNotify.decode 3 (0x00 :: [0x01, 0x02]) = .ok (.unknown ⟨0x00, [0x01, 0x02]⟩) :=
  unknown_fallback_spec 3 0x42 [0x01, 0x02] (by decide)

/-- C9: a payload of length exactly 7 beginning with 0xA0 passes the
length and type checks, takes the optional-trailing-fields branch
(`len(data) > 6`), reads `data[6]` and then raises `IndexError` at
`data[7]`, escaping the `DecodeError` taxonomy. -/
theorem a0_length_seven_index_error (b1 b2 b3 b4 b5 b6 : Nat) :
    PacketA0Notify.decode [0xA0, b1, b2, b3, b4, b5, b6] = .error PyErr.indexError := by
  simp [PacketA0Notify.decode]

end TogrillBluetooth

namespace TogrillBluetooth

/-- C5: DeviceStatus decode reads battery from byte 1, version from bytes
2 and 3, and splits byte 5 into function_type (bits 0-3), probe_number
(bits 4-6) and ambient (bit 7); with no trailing bytes the defaults are
alarm_interval 5 and alarm_sound true, and with both trailing bytes
present alarm_interval is byte 6 and alarm_sound holds iff byte 7 is 1;
the concrete payload A05B000800600501 decodes to battery 91, version 0.8,
function_type 0, probe_number 6, ambient false, alarm_interval 5,
alarm_sound true. -/
theorem a0_decode_spec (b1 b2 b3 b4 b5 b6 b7 : Nat) (rest : List Nat)
    (h5 : b5 < 256) :
    PacketA0Notify.decode [0xA0, b1, b2, b3, b4, b5] =
      .ok ⟨b1, b2, b3, b5 % 16, b5 / 16 % 8, decide (128 ≤ b5), 5, true⟩
  ∧ PacketA0Notify.decode (0xA0 :: b1 :: b2 :: b3 :: b4 :: b5 :: b6 :: b7 :: rest) =
      .ok ⟨b1, b2, b3, b5 % 16, b5 / 16 % 8, decide (128 ≤ b5), b6, decide (b7 = 1)⟩
  ∧ PacketA0Notify.decode [0xA0, 0x5B, 0x00, 0x08, 0x00, 0x60, 0x05, 0x01] =
      .ok ⟨91, 0, 8, 0, 6, false, 5, true⟩ := by
  refine ⟨?_, ?_, ?_⟩
  · simp [PacketA0Notify.decode, and_fifteen, shift4_and_seven, shift7_bit b5 h5]
  · simp [PacketA0Notify.decode, and_fifteen, shift4_and_seven, shift7_bit b5 h5,
      beq_one]
  · simp [PacketA0Notify.decode]
    decide

/-- Witness for C5 at the concrete device-status payload of the test
suite, in both the 6-byte and the 8-byte form. -/
theorem a0_decode_spec_witness :
    PacketA0Notify.decode [0xA0, 0x5B, 0x00, 0x08, 0x00, 0x60] =
      .ok ⟨0x5B, 0x00, 0x08, 0x60 % 16, 0x60 / 16 % 8, decide (128 ≤ 0x60), 5, true⟩
  ∧ PacketA0Notify.decode (0xA0 :: 0x5B :: 0x00 :: 0x08 :: 0x00 :: 0x60 :: 0x05 :: 0x01 :: []) =
      .ok ⟨0x5B, 0x00, 0x08, 0x60 % 16, 0x60 / 16 % 8, decide (128 ≤ 0x60), 0x05,
        decide ((0x01 : Nat) = 1)⟩
  ∧ PacketA0Notify.decode [0xA0, 0x5B, 0x00, 0x08, 0x00, 0x60, 0x05, 0x01] =
      .ok ⟨91, 0, 8, 0, 6, false, 5, true⟩ :=
  a0_decode_spec 0x5B 0x00 0x08 0x00 0x60 0x05 0x01 [] (by decide)

/-- Helper: appending one byte to an even-length byte list appends one
lone big-endian value to the two-byte readings. -/
lemma pairsBE_append_single :
    ∀ (l : List Nat), l.length % 2 = 0 → ∀ a, pairsBE (l ++ [a]) = pairsBE l ++ [a]
  | [], _, a => rfl
  | [_x], h, _a => by simp at h
  | x :: y :: rest, h, a => by
      have hr : rest.length % 2 = 0 := by
        simp only [List.length_cons] at h
        omega
      simp only [List.cons_append, pairsBE, List.append_eq]
      rw [pairsBE_append_single rest hr a]

/-- C10: ProbeTemperatures decode accepts every payload starting with the
0xA1 type byte and never raises; when the temperature bytes are odd in
number (even total length) the final lone byte is read as a one-byte
big-endian value and scaled by one tenth, so a trailing byte 0xB5 yields
18.1 rather than a truncation error. -/
theorem a1_odd_tail_spec (rest : List Nat) (a : Nat)
    (hlen : rest.length % 2 = 0) (ha : a < 256) :
    PacketA1Notify.decode (0xA1 :: (rest ++ [a])) =
      .ok ⟨(pairsBE rest).map convert ++ [some ((a : ℚ) / 10)]⟩
  ∧ (∀ r : List Nat, ∃ p, PacketA1Notify.decode (0xA1 :: r) = .ok p)
  ∧ PacketA1Notify.decode [0xA1, 0xFF, 0xFF, 0xB5] =
      .ok ⟨[none, some ((181 : ℚ) / 10)]⟩ := by
  refine ⟨?_, ?_, ?_⟩
  · have hc : convert a = some ((a : ℚ) / 10) := by
      rw [convert, if_neg (by omega), if_neg (by omega)]
    simp [PacketA1Notify.decode, pairsBE_append_single rest hlen a, hc]
  · intro r
    exact ⟨⟨(pairsBE r).map convert⟩, by simp [PacketA1Notify.decode]⟩
  · simp only [PacketA1Notify.decode]
    norm_num [pairsBE, convert]

/-- Witness for C10: the payload A1FFFFB5 carries one absent reading and
one lone trailing byte read as 18.1. -/
theorem a1_odd_tail_spec_witness :
    PacketA1Notify.decode (0xA1 :: ([0xFF, 0xFF] ++ [0xB5])) =
      .ok ⟨(pairsBE [0xFF, 0xFF]).map convert ++ [some ((0xB5 : ℚ) / 10)]⟩
  ∧ (∀ r : List Nat, ∃ p, PacketA1Notify.decode (0xA1 :: r) = .ok p)
  ∧ PacketA1Notify.decode [0xA1, 0xFF, 0xFF, 0xB5] =
      .ok ⟨[none, some ((181 : ℚ) / 10)]⟩ :=
  a1_odd_tail_spec [0xFF, 0xFF] 0xB5 (by decide) (by decide)

end TogrillBluetooth

namespace TogrillBluetooth

/-! Too-short behaviour of each variant decode. -/

lemma a0_decode_short : ∀ (d : List Nat), d.length < 6 →
    PacketA0Notify.decode d = .error (.decodeError "Packet too short")
  | [], _ => rfl
  | [_], _ => rfl
  | [_, _], _ => rfl
  | [_, _, _], _ => rfl
  | [_, _, _, _], _ => rfl
  | [_, _, _, _, _], _ => rfl
  | _ :: _ :: _ :: _ :: _ :: _ :: _, h => by
      simp only [List.length_cons] at h; omega

lemma a1_decode_short : ∀ (d : List Nat), d.length < 1 →
    PacketA1Notify.decode d = .error (.decodeError "Packet too short")
  | [], _ => rfl
  | _ :: _, h => by simp only [List.length_cons] at h; omega

lemma a5_decode_short : ∀ (d : List Nat), d.length < 3 →
    PacketA5Notify.decode d = .error (.decodeError "Packet too short")
  | [], _ => rfl
  | [_], _ => rfl
  | [_, _], _ => rfl
  | _ :: _ :: _ :: _, h => by simp only [List.length_cons] at h; omega

lemma a7n_decode_short : ∀ (d : List Nat), d.length < 2 →
    PacketA7Notify.decode d = .error (.decodeError "Packet too short")
  | [], _ => rfl
  | [_], _ => rfl
  | _ :: _ :: _, h => by simp only [List.length_cons] at h; omega

lemma a300_decode_short : ∀ (d : List Nat), d.length < 7 →
    PacketA300Write.decode d = .error (.decodeError "Packet too short")
  | [], _ => rfl
  | [_], _ => rfl
  | [_, _], _ => rfl
  | [_, _, _], _ => rfl
  | [_, _, _, _], _ => rfl
  | [_, _, _, _, _], _ => rfl
  | [_, _, _, _, _, _], _ => rfl
  | _ :: _ :: _ :: _ :: _ :: _ :: _ :: _, h => by
      simp only [List.length_cons] at h; omega

lemma a301_decode_short : ∀ (d : List Nat), d.length < 7 →
    PacketA301Write.decode d = .error (.decodeError "Packet too short")
  | [], _ => rfl
  | [_], _ => rfl
  | [_, _], _ => rfl
  | [_, _, _], _ => rfl
  | [_, _, _, _], _ => rfl
  | [_, _, _, _, _], _ => rfl
  | [_, _, _, _, _, _], _ => rfl
  | _ :: _ :: _ :: _ :: _ :: _ :: _ :: _, h => by
      simp only [List.length_cons] at h; omega

lemma a303_decode_short : ∀ (d : List Nat), d.length < 7 →
    PacketA303Write.decode d = .error (.decodeError "Packet too short")
  | [], _ => rfl
  | [_], _ => rfl
  | [_, _], _ => rfl
  | [_, _, _], _ => rfl
  | [_, _, _, _], _ => rfl
  | [_, _, _, _, _], _ => rfl
  | [_, _, _, _, _, _], _ => rfl
  | _ :: _ :: _ :: _ :: _ :: _ :: _ :: _, h => by
      simp only [List.length_cons] at h; omega

lemma a7w_decode_short : ∀ (d : List Nat), d.length < 5 →
    PacketA7Write.decode d = .error (.decodeError "Packet too short")
  | [], _ => rfl
  | [_], _ => rfl
  | [_, _], _ => rfl
  | [_, _, _], _ => rfl
  | [_, _, _, _], _ => rfl
  | _ :: _ :: _ :: _ :: _ :: _, h => by
      simp only [List.length_cons] at h; omega

/-- C4 counterexample: the claim requires every registered variant decode
to fail with a type-mismatch error when payload[0] differs from the
variant type constant, but `PacketA7Notify.decode` never inspects the
type byte: a 2-byte payload starting 0x00 decodes successfully. -/
theorem a7notify_no_type_check_counterexample :
    PacketA7Notify.decode [0x00, 0x05] = .ok ⟨0x05⟩ := rfl

/-- C4 (amended): every variant decode fails with the too-short
`DecodeError` when the payload is below its minimum length (6, 1, 3, 2,
7, 7, 7 and 5 bytes respectively), this check running first; the
defensive type-byte double-check exists only in the A0, A1 and A5 notify
decodes, which fail with the type-mismatch `DecodeError` on a wrong first
byte of a long-enough payload; the A7 notify and A7 write decodes accept
any first byte (the A3 write decodes instead validate the subtype
byte). -/
theorem variant_decode_error_spec :
    (∀ d : List Nat, d.length < 6 →
      PacketA0Notify.decode d = .error (.decodeError "Packet too short"))
  ∧ (∀ d : List Nat, d.length < 1 →
      PacketA1Notify.decode d = .error (.decodeError "Packet too short"))
  ∧ (∀ d : List Nat, d.length < 3 →
      PacketA5Notify.decode d = .error (.decodeError "Packet too short"))
  ∧ (∀ d : List Nat, d.length < 2 →
      PacketA7Notify.decode d = .error (.decodeError "Packet too short"))
  ∧ (∀ d : List Nat, d.length < 7 →
      PacketA300Write.decode d = .error (.decodeError "Packet too short"))
  ∧ (∀ d : List Nat, d.length < 7 →
      PacketA301Write.decode d = .error (.decodeError "Packet too short"))
  ∧ (∀ d : List Nat, d.length < 7 →
      PacketA303Write.decode d = .error (.decodeError "Packet too short"))
  ∧ (∀ d : List Nat, d.length < 5 →
      PacketA7Write.decode d = .error (.decodeError "Packet too short"))
  ∧ (∀ b0 b1 b2 b3 b4 b5 : Nat, ∀ rest : List Nat, b0 ≠ 0xA0 →
      PacketA0Notify.decode (b0 :: b1 :: b2 :: b3 :: b4 :: b5 :: rest) =
        .error (.decodeError "Failed to parse packet"))
  ∧ (∀ b0 : Nat, ∀ rest : List Nat, b0 ≠ 0xA1 →
      PacketA1Notify.decode (b0 :: rest) =
        .error (.decodeError "Failed to parse packet"))
  ∧ (∀ b0 b1 b2 : Nat, ∀ rest : List Nat, b0 ≠ 0xA5 →
      PacketA5Notify.decode (b0 :: b1 :: b2 :: rest) =
        .error (.decodeError "Failed to parse packet"))
  ∧ (∀ b0 b1 : Nat, ∀ rest : List Nat,
      PacketA7Notify.decode (b0 :: b1 :: rest) = .ok ⟨b1⟩)
  ∧ (∀ b0 b1 b2 b3 b4 : Nat, ∀ rest : List Nat,
      PacketA7Write.decode (b0 :: b1 :: b2 :: b3 :: b4 :: rest) =
        .ok ⟨b1, ((b3 * 256 + b4 : Nat) : ℚ), b2⟩) := by
  refine ⟨a0_decode_short, a1_decode_short, a5_decode_short, a7n_decode_short,
    a300_decode_short, a301_decode_short, a303_decode_short, a7w_decode_short,
    ?_, ?_, ?_, ?_, ?_⟩
  · intro b0 b1 b2 b3 b4 b5 rest h
    simp [PacketA0Notify.decode, h]
  · intro b0 rest h
    simp [PacketA1Notify.decode, h]
  · intro b0 b1 b2 rest h
    simp [PacketA5Notify.decode, h]
  · intro b0 b1 rest
    rfl
  · intro b0 b1 b2 b3 b4 rest
    rfl

/-- Witness for C4 (amended): a 1-byte payload is too short for A0, a
6-byte payload with the wrong type byte trips the A0 type check, and the
A7 notify decode accepts a wrong type byte. -/
theorem variant_decode_error_spec_witness :
    PacketA0Notify.decode [0xA0] = .error (.decodeError "Packet too short")
  ∧ PacketA0Notify.decode [0x01, 1, 2, 3, 4, 5] =
      .error (.decodeError "Failed to parse packet")
  ∧ PacketA7Notify.decode [0x00, 0x07] = .ok ⟨0x07⟩ := by
  obtain ⟨h1, _, _, _, _, _, _, _, h9, _, _, h12, _⟩ := variant_decode_error_spec
  exact ⟨h1 [0xA0] (by decide), h9 0x01 1 2 3 4 5 [] (by decide), h12 0x00 0x07 []⟩

/-- C6 counterexample: the claim says the 0xA3 family decode checks the
type byte before branching on the subtype, but `PacketA300Write.decode`
accepts a payload whose first byte is 0x00. -/
theorem a300_decode_ignores_type_counterexample :
    PacketA300Write.decode [0x00, 1, 0x00, 0, 16, 0, 32] =
      .ok ⟨1, (16 : ℚ) / 10, (32 : ℚ) / 10⟩ := by
  norm_num [PacketA300Write.decode]

/-- C6 (amended): each 0xA3-family variant decode branches only on the
subtype byte (the third payload byte), never inspecting the type byte:
for every payload of length at least 7 whose subtype byte is none of
0x00, 0x01, 0x03, all three decodes fail with the unknown-subtype
`DecodeError` (no fallback to Unknown), and each variant accepts exactly
its own subtype whatever the first byte is. -/
theorem a3_subtype_dispatch_spec (b0 b1 b2 b3 b4 b5 b6 : Nat) (rest : List Nat)
    (h0 : b2 ≠ 0x00) (h1 : b2 ≠ 0x01) (h3 : b2 ≠ 0x03) :
    PacketA300Write.decode (b0 :: b1 :: b2 :: b3 :: b4 :: b5 :: b6 :: rest) =
      .error (.decodeError "Invalid subtype")
  ∧ PacketA301Write.decode (b0 :: b1 :: b2 :: b3 :: b4 :: b5 :: b6 :: rest) =
      .error (.decodeError "Invalid subtype")
  ∧ PacketA303Write.decode (b0 :: b1 :: b2 :: b3 :: b4 :: b5 :: b6 :: rest) =
      .error (.decodeError "Invalid subtype")
  ∧ PacketA300Write.decode (b0 :: b1 :: 0x00 :: b3 :: b4 :: b5 :: b6 :: rest) =
      .ok ⟨b1, ((b3 * 256 + b4 : Nat) : ℚ) / 10, ((b5 * 256 + b6 : Nat) : ℚ) / 10⟩
  ∧ PacketA301Write.decode (b0 :: b1 :: 0x01 :: b3 :: b4 :: b5 :: b6 :: rest) =
      .ok ⟨b1, ((b3 * 256 + b4 : Nat) : ℚ) / 10⟩
  ∧ PacketA303Write.decode (b0 :: b1 :: 0x03 :: b3 :: b4 :: b5 :: b6 :: rest) =
      .ok ⟨b1, b4⟩ := by
  refine ⟨?_, ?_, ?_, ?_, ?_, ?_⟩ <;>
    simp [PacketA300Write.decode, PacketA301Write.decode, PacketA303Write.decode,
      h0, h1, h3]

/-- Witness for C6 (amended) at subtype byte 0x02, which none of the
three variants recognises. -/
theorem a3_subtype_dispatch_spec_witness :
    PacketA300Write.decode (0xA3 :: 1 :: 0x02 :: 0 :: 16 :: 0 :: 32 :: []) =
      .error (.decodeError "Invalid subtype")
  ∧ PacketA301Write.decode (0xA3 :: 1 :: 0x02 :: 0 :: 16 :: 0 :: 32 :: []) =
      .error (.decodeError "Invalid subtype")
  ∧ PacketA303Write.decode (0xA3 :: 1 :: 0x02 :: 0 :: 16 :: 0 :: 32 :: []) =
      .error (.decodeError "Invalid subtype")
  ∧ PacketA300Write.decode (0xA3 :: 1 :: 0x00 :: 0 :: 16 :: 0 :: 32 :: []) =
      .ok ⟨1, ((0 * 256 + 16 : Nat) : ℚ) / 10, ((0 * 256 + 32 : Nat) : ℚ) / 10⟩
  ∧ PacketA301Write.decode (0xA3 :: 1 :: 0x01 :: 0 :: 16 :: 0 :: 32 :: []) =
      .ok ⟨1, ((0 * 256 + 16 : Nat) : ℚ) / 10⟩
  ∧ PacketA303Write.decode (0xA3 :: 1 :: 0x03 :: 0 :: 16 :: 0 :: 32 :: []) =
      .ok ⟨1, 16⟩ :=
  a3_subtype_dispatch_spec 0xA3 1 0x02 0 16 0 32 [] (by decide) (by decide) (by decide)

end TogrillBluetooth

namespace TogrillBluetooth

/-! Arithmetic helpers for the encode functions. -/

lemma qscale (k : Nat) : ((k : ℚ) / 10) * 10 = (k : ℚ) :=
  div_mul_cancel₀ _ (by norm_num)

lemma pyRound_natCast (k : Nat) : pyRound ((k : ℚ)) = (k : ℤ) := by
  rw [pyRound, if_pos]
  · exact Int.floor_natCast k
  · rw [Int.fract_natCast]
    norm_num

lemma toBytes2_natCast (k : Nat) (hk : k < 65536) :
    toBytes2 ((k : ℤ)) = some [k / 256, k % 256] := by
  rw [toBytes2, if_pos]
  · simp
  · exact ⟨Int.natCast_nonneg k, by exact_mod_cast hk⟩

lemma a300_encode_eq (probe mk Mk : Nat)
    (hp : probe < 256) (hm : mk < 65536) (hM : Mk < 65536) :
    PacketA300Write.encode ⟨probe, (mk : ℚ) / 10, (Mk : ℚ) / 10⟩ =
      some [0xA3, probe, 0x00, mk / 256, mk % 256, Mk / 256, Mk % 256] := by
  have hall : ([0xA3, probe, 0x00, mk / 256, mk % 256, Mk / 256, Mk % 256] :
      List Nat).all (fun b => b < 256) = true := by
    simp only [List.all_cons, List.all_nil, Bool.and_eq_true, decide_eq_true_eq]
    refine ⟨by norm_num, hp, by norm_num, by omega, by omega, by omega, by omega, trivial⟩
  simp only [PacketA300Write.encode, qscale, pyRound_natCast,
    toBytes2_natCast mk hm, toBytes2_natCast Mk hM, Option.bind_eq_bind,
    Option.some_bind]
  simp [bytesOf, hall]

lemma a301_encode_eq (probe tk : Nat) (hp : probe < 256) (ht : tk < 65536) :
    PacketA301Write.encode ⟨probe, (tk : ℚ) / 10⟩ =
      some [0xA3, probe, 0x01, tk / 256, tk % 256, 0, 0] := by
  have hall : ([0xA3, probe, 0x01, tk / 256, tk % 256, 0, 0] :
      List Nat).all (fun b => b < 256) = true := by
    simp only [List.all_cons, List.all_nil, Bool.and_eq_true, decide_eq_true_eq]
    refine ⟨by norm_num, hp, by norm_num, by omega, by omega, by norm_num, by norm_num, trivial⟩
  simp only [PacketA301Write.encode, qscale, pyRound_natCast,
    toBytes2_natCast tk ht, Option.bind_eq_bind, Option.some_bind]
  simp [bytesOf, hall]

lemma a303_encode_eq (probe grill : Nat) (hp : probe < 256) (hg : grill < 256) :
    PacketA303Write.encode ⟨probe, grill⟩ =
      some [0xA3, probe, 0x03, 0, grill, 0, 0] := by
  have hall : ([0xA3, probe, 0x03, 0, grill, 0, 0] :
      List Nat).all (fun b => b < 256) = true := by
    simp only [List.all_cons, List.all_nil, Bool.and_eq_true, decide_eq_true_eq]
    refine ⟨by norm_num, hp, by norm_num, by norm_num, hg, by norm_num, by norm_num, trivial⟩
  simp [PacketA303Write.encode, bytesOf, hall]

lemma a7w_encode_eq (probe unk s : Nat)
    (hp : probe < 256) (hu : unk < 256) (hs : s < 65536) :
    PacketA7Write.encode ⟨probe, (s : ℚ), unk⟩ =
      some [0xA7, probe, unk, s / 256, s % 256] := by
  have hall : ([0xA7, probe, unk, s / 256, s % 256] :
      List Nat).all (fun b => b < 256) = true := by
    simp only [List.all_cons, List.all_nil, Bool.and_eq_true, decide_eq_true_eq]
    refine ⟨by norm_num, hp, hu, by omega, by omega, trivial⟩
  simp only [PacketA7Write.encode, pyRound_natCast, toBytes2_natCast s hs,
    Option.bind_eq_bind, Option.some_bind]
  simp [bytesOf, hall]

end TogrillBluetooth

namespace TogrillBluetooth

/-- C3: every write-direction variant round-trips. With representable
field values (probe, grill type and the unknown byte below 256,
temperatures non-negative multiples of 0.1 below 6553.6 given as k/10
with k below 65536, timer seconds at most 65535), decode after encode
reproduces the packet exactly; and on every well-formed payload of each
variant (its wire layout with in-range bytes, reserved bytes zero),
encode after decode reproduces the identical byte sequence. -/
theorem write_packets_roundtrip
    (probe grill unk mk Mk tk s b1 b2 b3 b4 : Nat)
    (hp : probe < 256) (hg : grill < 256) (hu : unk < 256)
    (hmk : mk < 65536) (hMk : Mk < 65536) (htk : tk < 65536) (hs : s ≤ 65535)
    (hb1 : b1 < 256) (hb2 : b2 < 256) (hb3 : b3 < 256) (hb4 : b4 < 256) :
    (∃ b, PacketA300Write.encode ⟨probe, (mk : ℚ) / 10, (Mk : ℚ) / 10⟩ = some b ∧
          PacketA300Write.decode b = .ok ⟨probe, (mk : ℚ) / 10, (Mk : ℚ) / 10⟩)
  ∧ (∃ b, PacketA301Write.encode ⟨probe, (tk : ℚ) / 10⟩ = some b ∧
          PacketA301Write.decode b = .ok ⟨probe, (tk : ℚ) / 10⟩)
  ∧ (∃ b, PacketA303Write.encode ⟨probe, grill⟩ = some b ∧
          PacketA303Write.decode b = .ok ⟨probe, grill⟩)
  ∧ (∃ b, PacketA7Write.encode ⟨probe, (s : ℚ), unk⟩ = some b ∧
          PacketA7Write.decode b = .ok ⟨probe, (s : ℚ), unk⟩)
  ∧ (∃ q, PacketA300Write.decode [0xA3, probe, 0x00, b1, b2, b3, b4] = .ok q ∧
          PacketA300Write.encode q = some [0xA3, probe, 0x00, b1, b2, b3, b4])
  ∧ (∃ q, PacketA301Write.decode [0xA3, probe, 0x01, b1, b2, 0, 0] = .ok q ∧
          PacketA301Write.encode q = some [0xA3, probe, 0x01, b1, b2, 0, 0])
  ∧ (∃ q, PacketA303Write.decode [0xA3, probe, 0x03, 0, grill, 0, 0] = .ok q ∧
          PacketA303Write.encode q = some [0xA3, probe, 0x03, 0, grill, 0, 0])
  ∧ (∃ q, PacketA7Write.decode [0xA7, probe, unk, b1, b2] = .ok q ∧
          PacketA7Write.encode q = some [0xA7, probe, unk, b1, b2]) := by
  have e12 : b1 * 256 + b2 < 65536 := by omega
  have e34 : b3 * 256 + b4 < 65536 := by omega
  have d12a : (b1 * 256 + b2) / 256 = b1 := by omega
  have d12b : (b1 * 256 + b2) % 256 = b2 := by omega
  have d34a : (b3 * 256 + b4) / 256 = b3 := by omega
  have d34b : (b3 * 256 + b4) % 256 = b4 := by omega
  refine ⟨?_, ?_, ?_, ?_, ?_, ?_, ?_, ?_⟩
  · refine ⟨_, a300_encode_eq probe mk Mk hp hmk hMk, ?_⟩
    have e1 : mk / 256 * 256 + mk % 256 = mk := by omega
    have e2 : Mk / 256 * 256 + Mk % 256 = Mk := by omega
    simp [PacketA300Write.decode, e1, e2]
  · refine ⟨_, a301_encode_eq probe tk hp htk, ?_⟩
    have e1 : tk / 256 * 256 + tk % 256 = tk := by omega
    simp [PacketA301Write.decode, e1]
  · refine ⟨_, a303_encode_eq probe grill hp hg, ?_⟩
    simp [PacketA303Write.decode]
  · refine ⟨_, a7w_encode_eq probe unk s hp hu (by omega), ?_⟩
    have e1 : s / 256 * 256 + s % 256 = s := by omega
    simp [PacketA7Write.decode, e1]
  · refine ⟨⟨probe, ((b1 * 256 + b2 : Nat) : ℚ) / 10, ((b3 * 256 + b4 : Nat) : ℚ) / 10⟩,
      by simp [PacketA300Write.decode], ?_⟩
    rw [a300_encode_eq probe (b1 * 256 + b2) (b3 * 256 + b4) hp e12 e34,
      d12a, d12b, d34a, d34b]
  · refine ⟨⟨probe, ((b1 * 256 + b2 : Nat) : ℚ) / 10⟩,
      by simp [PacketA301Write.decode], ?_⟩
    rw [a301_encode_eq probe (b1 * 256 + b2) hp e12, d12a, d12b]
  · refine ⟨⟨probe, grill⟩, by simp [PacketA303Write.decode], ?_⟩
    exact a303_encode_eq probe grill hp hg
  · refine ⟨⟨probe, ((b1 * 256 + b2 : Nat) : ℚ), unk⟩,
      by simp [PacketA7Write.decode], ?_⟩
    rw [a7w_encode_eq probe unk (b1 * 256 + b2) hp hu e12, d12a, d12b]

/-- Witness for C3 at the round-trip values of the test suite: SetMinMax
probe 1 with 1.6 and 3.2, SetTarget 1.6, SetGrillType 5, SetTimer 256
seconds, and the corresponding well-formed payloads. -/
theorem write_packets_roundtrip_witness :
    (∃ b, PacketA300Write.encode ⟨1, ((16 : Nat) : ℚ) / 10, ((32 : Nat) : ℚ) / 10⟩ = some b ∧
          PacketA300Write.decode b = .ok ⟨1, ((16 : Nat) : ℚ) / 10, ((32 : Nat) : ℚ) / 10⟩)
  ∧ (∃ b, PacketA301Write.encode ⟨1, ((16 : Nat) : ℚ) / 10⟩ = some b ∧
          PacketA301Write.decode b = .ok ⟨1, ((16 : Nat) : ℚ) / 10⟩)
  ∧ (∃ b, PacketA303Write.encode ⟨1, 5⟩ = some b ∧
          PacketA303Write.decode b = .ok ⟨1, 5⟩)
  ∧ (∃ b, PacketA7Write.encode ⟨0, ((256 : Nat) : ℚ), 1⟩ = some b ∧
          PacketA7Write.decode b = .ok ⟨0, ((256 : Nat) : ℚ), 1⟩)
  ∧ (∃ q, PacketA300Write.decode [0xA3, 1, 0x00, 0, 16, 0, 32] = .ok q ∧
          PacketA300Write.encode q = some [0xA3, 1, 0x00, 0, 16, 0, 32])
  ∧ (∃ q, PacketA301Write.decode [0xA3, 1, 0x01, 0, 16, 0, 0] = .ok q ∧
          PacketA301Write.encode q = some [0xA3, 1, 0x01, 0, 16, 0, 0])
  ∧ (∃ q, PacketA303Write.decode [0xA3, 1, 0x03, 0, 5, 0, 0] = .ok q ∧
          PacketA303Write.encode q = some [0xA3, 1, 0x03, 0, 5, 0, 0])
  ∧ (∃ q, PacketA7Write.decode [0xA7, 1, 1, 0, 16] = .ok q ∧
          PacketA7Write.encode q = some [0xA7, 1, 1, 0, 16]) := by
  have h := write_packets_roundtrip 1 5 1 16 32 16 256 0 16 0 32
    (by decide) (by decide) (by decide) (by decide) (by decide) (by decide)
    (by decide) (by decide) (by decide) (by decide) (by decide)
  have h0 := write_packets_roundtrip 0 5 1 16 32 16 256 0 16 0 32
    (by decide) (by decide) (by decide) (by decide) (by decide) (by decide)
    (by decide) (by decide) (by decide) (by decide) (by decide)
  exact ⟨h.1, h.2.1, h.2.2.1, h0.2.2.2.1, h.2.2.2.2.1, h.2.2.2.2.2.1,
    h.2.2.2.2.2.2.1, h.2.2.2.2.2.2.2⟩

end TogrillBluetooth

namespace TogrillBluetooth

lemma take_len_append (l t : List Nat) : (l ++ t).take l.length = l := by
  induction l with
  | nil => rfl
  | cons x xs ih => simp [List.take_succ_cons, ih]

lemma getD_len_append (l : List Nat) (c : Nat) : (l ++ [c]).getD l.length 0 = c := by
  induction l with
  | nil => rfl
  | cons x xs ih => simp [ih]

/-- C8: the frame codec round-trips every payload of at most 65535 bytes,
and the concrete frame 55AA0008A05B00080060050160 decodes to the payload
A05B000800600501. -/
theorem frame_roundtrip (payload : List Nat) (h : payload.length ≤ 65535) :
    Frame.decode (Frame.encode payload) = .ok payload
  ∧ Frame.decode [0x55, 0xAA, 0x00, 0x08, 0xA0, 0x5B, 0x00, 0x08, 0x00,
      0x60, 0x05, 0x01, 0x60] = .ok [0xA0, 0x5B, 0x00, 0x08, 0x00, 0x60, 0x05, 0x01] := by
  constructor
  · have hL : payload.length / 256 % 256 * 256 + payload.length % 256 =
        payload.length := by omega
    rw [Frame.encode]
    simp only [List.cons_append, List.nil_append, List.append_assoc]
    rw [Frame.decode]
    simp [hL, take_len_append, getD_len_append]
  · rfl

/-- Witness for C8: the two-byte request payload A100 round-trips through
the frame codec. -/
theorem frame_roundtrip_witness :
    Frame.decode (Frame.encode [0xA1, 0x00]) = .ok [0xA1, 0x00]
  ∧ Frame.decode [0x55, 0xAA, 0x00, 0x08, 0xA0, 0x5B, 0x00, 0x08, 0x00,
      0x60, 0x05, 0x01, 0x60] = .ok [0xA0, 0x5B, 0x00, 0x08, 0x00, 0x60, 0x05, 0x01] :=
  frame_roundtrip [0xA1, 0x00] (by decide)

end TogrillBluetooth
